import Mathlib

/-!
Verification of the InnLab Minecraft launcher (Flet_MinecraftLauncher_InnLab).

Shallow embedding of the parts of the program the specification talks about:

* `ConfigManager.load_config` / `ConfigManager.save_config` (src/main.py),
* `ensure_customskinloader` (src/launcher.py),
* `get_fabric_loader_version_safe` (src/launcher.py),
* the `launch_game` workflow (src/launcher.py),

together with theorems settling the specified properties.

JSON documents parsed by the Python `json.load` are modelled by `JVal`;
Python float values distinguish finite values (as rationals) from
`inf` / `-inf` / `nan`, because the Python `json` module accepts the
non-standard tokens `Infinity`, `-Infinity` and `NaN` by default, and
`int()` raises on the non-finite ones.  External calls (network, spawn)
are modelled by passing their outcome in explicitly; a Python function
that may raise is embedded as a function into `Except`.
-/

set_option autoImplicit false

namespace InnLab

/-- A Python float as it is observed by the config validator:
finite values are modelled as rationals; the infinities and NaN are
kept apart because `int()` raises on them and comparisons treat them
specially. -/
inductive PyFloat where
  | finite (q : ℚ)
  | inf
  | ninf
  | nan
deriving DecidableEq, Repr

/-- A Python number: `int` or `float`.  (`bool` is handled at the
`JVal` level, since the Python `bool` is a subclass of `int`.) -/
inductive PyNum where
  | int (n : ℤ)
  | float (x : PyFloat)
deriving DecidableEq, Repr

/-- A Python value produced by `json.load`. -/
inductive JVal where
  | num (v : PyNum)
  | str (s : String)
  | bool (b : Bool)
  | null
  | arr (xs : List JVal)
  | obj (kvs : List (String × JVal))

/-- Python dict lookup for a dict built by `json.load` from an
association list: a duplicated key keeps its last value. -/
def pyGet (kvs : List (String × JVal)) (k : String) : Option JVal :=
  (kvs.reverse.find? (fun kv => kv.fst == k)).map (·.snd)

/-- Embeds `config.get(k, d)`. -/
def pyGetD (kvs : List (String × JVal)) (k : String) (d : JVal) : JVal :=
  (pyGet kvs k).getD d

/-- Embeds `k in config`. -/
def pyMem (kvs : List (String × JVal)) (k : String) : Bool :=
  (pyGet kvs k).isSome

/-- Embeds `isinstance(v, (int, float))`.  the Python `bool` is a subclass of
`int`, so booleans satisfy this check. -/
def isNumber : JVal → Bool
  | .num _ => true
  | .bool _ => true
  | _ => false

/-- Embeds `isinstance(v, str)`. -/
def isStr : JVal → Bool
  | .str _ => true
  | _ => false

/-- Embeds `isinstance(v, bool)`. -/
def isBool : JVal → Bool
  | .bool _ => true
  | _ => false

/-- The Python comparison `2 <= v <= 32` evaluated on a numeric value
(`True` counts as `1`, `False` as `0`; comparisons with `nan` are
false; `inf` fails the upper bound and `-inf` the lower one). -/
def ramInRange : JVal → Bool
  | .num (.int n) => decide (2 ≤ n ∧ n ≤ 32)
  | .num (.float (.finite q)) => decide ((2 : ℚ) ≤ q ∧ q ≤ 32)
  | .num (.float .inf) => false
  | .num (.float .ninf) => false
  | .num (.float .nan) => false
  | .bool _ => false
  | _ => false

/-- Exceptions of the config code that the `except` clause of
`load_config` does not catch. -/
inductive PyErr where
  | overflowError
  | valueError
deriving DecidableEq, Repr

/-- Truncation of a rational toward zero, as the Python `int(float)`. -/
def ratTrunc (q : ℚ) : ℤ :=
  q.num.tdiv (q.den : ℤ)

/-- The Python `int(v)` on a value that passed the `isinstance(v, (int,
float))` check.  `int() on an infinite float` raises `OverflowError` and
`int() on a NaN float` raises `ValueError`; neither is in the `except`
tuple of `load_config`. -/
def pyIntOfNumber : JVal → Except PyErr ℤ
  | .num (.int n) => .ok n
  | .num (.float (.finite q)) => .ok (ratTrunc q)
  | .num (.float .inf) => .error .overflowError
  | .num (.float .ninf) => .error .overflowError
  | .num (.float .nan) => .error .valueError
  | .bool b => .ok (if b then 1 else 0)
  | _ => .ok 0

/-- The Python whitespace predicate that `str.strip` (with no
argument) removes: the characters satisfying the CPython
Py_UNICODE_ISSPACE test, i.e. code points 0x09-0x0d (tab, LF,
vertical tab, form feed, CR), 0x1c-0x1f (the separators), 0x20
(space), 0x85 (NEL), 0xa0 (NBSP), 0x1680, 0x2000-0x200a, 0x2028,
0x2029, 0x202f, 0x205f and 0x3000.  This is wider than the Lean
`Char.isWhitespace` (space/tab/CR/LF only). -/
def pyIsSpace (c : Char) : Bool :=
  let n := c.toNat
  (decide (0x09 ≤ n) && decide (n ≤ 0x0d)) ||
  (decide (0x1c ≤ n) && decide (n ≤ 0x1f)) ||
  n == 0x20 || n == 0x85 || n == 0xa0 || n == 0x1680 ||
  (decide (0x2000 ≤ n) && decide (n ≤ 0x200a)) ||
  n == 0x2028 || n == 0x2029 || n == 0x202f || n == 0x205f || n == 0x3000

/-- The Python `str.strip` on the character list: leading and
trailing `pyIsSpace` characters removed. -/
def pyStripList (cs : List Char) : List Char :=
  ((cs.dropWhile pyIsSpace).reverse.dropWhile pyIsSpace).reverse

/-- The Python `str.strip`. -/
def pyStrip (s : String) : String :=
  ⟨pyStripList s.data⟩

/-- The validated configuration record of `ConfigManager`
(src/main.py).  `ram` keeps the raw numeric value (Python keeps an
in-range float as-is). -/
structure Config where
  ram : PyNum
  skin : String
  nickname : String
  theme : String
  auto_update : Bool
  java_path : String
  window_width : ℤ
  window_height : ℤ
deriving DecidableEq, Repr

/-- Embeds `ConfigManager.DEFAULT_CONFIG` (src/main.py lines 27-36). -/
def DEFAULT_CONFIG : Config :=
  { ram := .int 4
    skin := ""
    nickname := "Player"
    theme := "dark"
    auto_update := true
    java_path := ""
    window_width := 1200
    window_height := 800 }

/-- What the config file on disk looks like to `load_config`: missing,
unreadable (`IOError` on open/read), undecodable
(`json.JSONDecodeError` / `UnicodeDecodeError`), or a parsed JSON
value. -/
inductive FileContent where
  | missing
  | ioError
  | decodeError
  | json (v : JVal)

/-- The `ram` validation of `load_config` (src/main.py lines 54-57):
the raw value is kept only when it is numeric and inside `[2, 32]`,
otherwise the default `4` stays. -/
def validateRam (kvs : List (String × JVal)) : PyNum :=
  let ram := pyGetD kvs "ram" (.num (.int 4))
  if isNumber ram && ramInRange ram then
    match ram with
    | .num v => v
    | .bool b => .int (if b then 1 else 0)
    | _ => .int 4
  else .int 4

/-- The `skin` validation (lines 59-62): any string is passed through,
anything else keeps the default. -/
def validateSkin (kvs : List (String × JVal)) : String :=
  match pyGetD kvs "skin" (.str "") with
  | .str s => s
  | _ => DEFAULT_CONFIG.skin

/-- The `nickname` validation (lines 64-67): a string with a non-empty
strip is kept stripped, anything else keeps the default. -/
def validateNickname (kvs : List (String × JVal)) : String :=
  match pyGetD kvs "nickname" (.str "Player") with
  | .str s => if 0 < (pyStrip s).data.length then pyStrip s else DEFAULT_CONFIG.nickname
  | _ => DEFAULT_CONFIG.nickname

/-- The `theme` / `java_path` validation (lines 70-72): kept only when
the key is present and the value is a string. -/
def validateStrKey (kvs : List (String × JVal)) (k : String) (d : String) : String :=
  match pyGet kvs k with
  | some (.str s) => s
  | _ => d

/-- The `auto_update` validation (lines 74-76): kept only when present
and a `bool`. -/
def validateAutoUpdate (kvs : List (String × JVal)) : Bool :=
  match pyGet kvs "auto_update" with
  | some (.bool b) => b
  | _ => DEFAULT_CONFIG.auto_update

/-- The window size validation (lines 78-80): when the key is present
with a numeric value, `max(600, int(v))` — where `int(v)` raises on
non-finite floats and that exception is not caught. -/
def validateWindow (kvs : List (String × JVal)) (k : String) (d : ℤ) : Except PyErr ℤ :=
  match pyGet kvs k with
  | some v =>
    if isNumber v then (pyIntOfNumber v).map (fun n => max 600 n) else .ok d
  | none => .ok d

/-- The validation body of `ConfigManager.load_config` on a parsed
JSON object (src/main.py lines 51-82). -/
def validateObj (kvs : List (String × JVal)) : Except PyErr Config := do
  let ww ← validateWindow kvs "window_width" DEFAULT_CONFIG.window_width
  let wh ← validateWindow kvs "window_height" DEFAULT_CONFIG.window_height
  pure
    { ram := validateRam kvs
      skin := validateSkin kvs
      nickname := validateNickname kvs
      theme := validateStrKey kvs "theme" DEFAULT_CONFIG.theme
      auto_update := validateAutoUpdate kvs
      java_path := validateStrKey kvs "java_path" DEFAULT_CONFIG.java_path
      window_width := ww
      window_height := wh }

namespace ConfigManager

/-- Embeds `ConfigManager.load_config` (src/main.py lines 38-87).  A missing
file, an `IOError`, a decode error or a non-object JSON value all
yield the defaults; on an object each field is validated
independently.  The `except` clause catches only `json.JSONDecodeError`,
`IOError` and `UnicodeDecodeError`, so the `OverflowError` /
`ValueError` that `int()` raises on a non-finite float escapes as
`.error`. -/
def load_config : FileContent → Except PyErr Config
  | .missing => .ok DEFAULT_CONFIG
  | .ioError => .ok DEFAULT_CONFIG
  | .decodeError => .ok DEFAULT_CONFIG
  | .json (.obj kvs) => validateObj kvs
  | .json _ => .ok DEFAULT_CONFIG

end ConfigManager

/-- The `ram` entry that `save_config` writes (src/main.py lines
96-101): the raw value when numeric and in `[2, 32]`, else the literal
`4`. -/
def saveRam (cfg : List (String × JVal)) : JVal :=
  let ram := pyGetD cfg "ram" (.num (.int 4))
  if isNumber ram && ramInRange ram then ram else .num (.int 4)

/-- The per-field validation of `save_config` for a field with a string
default (src/main.py lines 104-111): `isinstance(value, str)` keeps
the value, otherwise the default is written. -/
def saveStr (cfg : List (String × JVal)) (k : String) (d : String) : JVal :=
  match pyGetD cfg k (.str d) with
  | .str s => .str s
  | _ => .str d

/-- The per-field validation of `save_config` for a field with a `bool`
default: `isinstance(value, bool)` (a plain int is not a `bool`). -/
def saveBool (cfg : List (String × JVal)) (k : String) (d : Bool) : JVal :=
  match pyGetD cfg k (.bool d) with
  | .bool b => .bool b
  | _ => .bool d

/-- The per-field validation of `save_config` for a field with an `int`
default: `isinstance(value, int)` accepts Python ints and bools (a
`bool` is an `int`), but not floats. -/
def saveInt (cfg : List (String × JVal)) (k : String) (d : ℤ) : JVal :=
  match pyGetD cfg k (.num (.int d)) with
  | .num (.int n) => .num (.int n)
  | .bool b => .bool b
  | _ => .num (.int d)

namespace ConfigManager

/-- The validated document that `ConfigManager.save_config`
(src/main.py lines 89-135) serializes to disk, as the association list
that `json.dump` writes (insertion order: `ram` first, then the other
`DEFAULT_CONFIG` keys in declaration order). -/
def save_validated (cfg : List (String × JVal)) : List (String × JVal) :=
  [ ("ram", saveRam cfg)
  , ("skin", saveStr cfg "skin" DEFAULT_CONFIG.skin)
  , ("nickname", saveStr cfg "nickname" DEFAULT_CONFIG.nickname)
  , ("theme", saveStr cfg "theme" DEFAULT_CONFIG.theme)
  , ("auto_update", saveBool cfg "auto_update" DEFAULT_CONFIG.auto_update)
  , ("java_path", saveStr cfg "java_path" DEFAULT_CONFIG.java_path)
  , ("window_width", saveInt cfg "window_width" DEFAULT_CONFIG.window_width)
  , ("window_height", saveInt cfg "window_height" DEFAULT_CONFIG.window_height) ]

end ConfigManager

/-- The JSON rendering of a validated `Config`, field for field; used
to state the save/load round trip. -/
def writtenOf (c : Config) : List (String × JVal) :=
  [ ("ram", .num c.ram)
  , ("skin", .str c.skin)
  , ("nickname", .str c.nickname)
  , ("theme", .str c.theme)
  , ("auto_update", .bool c.auto_update)
  , ("java_path", .str c.java_path)
  , ("window_width", .num (.int c.window_width))
  , ("window_height", .num (.int c.window_height)) ]

/-- The hypothesis of the round-trip claim on the `ram` field: a
number inside `[2, 32]`. -/
def ramOk (v : JVal) : Bool :=
  isNumber v && ramInRange v

/-- The hypothesis of the round-trip claim on `nickname`: a non-empty
string containing no character that the Python `str.strip` would
remove. -/
def nickOk : JVal → Bool
  | .str s => !s.data.isEmpty && s.data.all (fun c => !pyIsSpace c)
  | _ => false

/-- The hypothesis of the round-trip claim on the window fields: a
number that is at least `600`. -/
def winOk : JVal → Bool
  | .num (.int n) => decide (600 ≤ n)
  | .num (.float (.finite q)) => decide ((600 : ℚ) ≤ q)
  | _ => false

/-! ## The auxiliary-mod install step (`ensure_customskinloader`) -/

/-- One entry of the `files` list of a Modrinth version record. -/
structure ModFile where
  filename : String
  url : String
deriving DecidableEq, Repr

/-- One record of the Modrinth registry response
(`/project/customskinloader/version`). -/
structure ModVersion where
  game_versions : List String
  loaders : List String
  files : List ModFile
deriving DecidableEq, Repr

/-- The part of the game directory that `ensure_customskinloader`
touches: whether the `mods` directory exists and which file names it
contains. -/
structure FS where
  modsDirExists : Bool
  files : List String
deriving DecidableEq, Repr

/-- Network-class and other exceptions raised by external calls
(requests / mclib). -/
inductive NetExc where
  | sslError
  | connectionError
  | timeout
  | other (msg : String)
deriving DecidableEq, Repr

/-- The network-class errors: `requests.exceptions.SSLError`,
`ConnectionError`, `Timeout`. -/
def isNetworkError : NetExc → Bool
  | .sslError => true
  | .connectionError => true
  | .timeout => true
  | .other _ => false

/-- The inner `for file in v.files` loop of
`ensure_customskinloader` (src/launcher.py lines 154-166): the first
file whose name ends in `.jar` is handled (skipped when present on
disk, downloaded otherwise) and the function returns; `none` means the
loop fell through and the outer loop continues. -/
def handleFiles (fs : FS) : List ModFile → Option (FS × List String)
  | [] => none
  | f :: rest =>
    if f.filename.endsWith ".jar" then
      if fs.files.contains f.filename then
        some (fs, [])
      else
        some ({ fs with files := fs.files ++ [f.filename] }, [f.url])
    else handleFiles fs rest

/-- The outer `for v in versions` loop of `ensure_customskinloader`
(src/launcher.py lines 152-166): the first record matching the game
version and the loader is tried; if its files hold no `.jar` the scan
continues with the next record. -/
def scanVersions (fs : FS) (mc loader : String) : List ModVersion → FS × List String
  | [] => (fs, [])
  | v :: rest =>
    if v.game_versions.contains mc && v.loaders.contains loader then
      match handleFiles fs v.files with
      | some r => r
      | none => scanVersions fs mc loader rest
    else scanVersions fs mc loader rest

/-- Embeds `ensure_customskinloader` (src/launcher.py lines 142-169).  The
registry response is passed in as the outcome of the Modrinth request;
an exception from the request is caught and logged (lines 168-169).
`os.makedirs(mods_dir, exist_ok=True)` runs first in either case.  The
second component of the result lists the URLs downloaded. -/
def ensure_customskinloader (fs : FS) (registry : Except NetExc (List ModVersion))
    (mc loader : String) : FS × List String :=
  let fs0 : FS := { fs with modsDirExists := true }
  match registry with
  | .error _ => (fs0, [])
  | .ok versions => scanVersions fs0 mc loader versions

/-- The inner-loop selection, read off the source loops: the first
`.jar` file of a file list. -/
def pickFromFiles : List ModFile → Option ModFile
  | [] => none
  | f :: rest =>
    if f.filename.endsWith ".jar" then some f else pickFromFiles rest

/-- The artifact the source loops of `ensure_customskinloader` select:
scanning records in order, the first matching record that contains a
`.jar` file yields its first `.jar` file. -/
def pickArtifact (mc loader : String) : List ModVersion → Option ModFile
  | [] => none
  | v :: rest =>
    if v.game_versions.contains mc && v.loaders.contains loader then
      match pickFromFiles v.files with
      | some f => some f
      | none => pickArtifact mc loader rest
    else pickArtifact mc loader rest

/-- Modelled from the wording of the spec (section 6): a record
matches when its `gameVersions` list contains the requested game
version, its `loaders` list contains the requested loader family, and
its `files` list contains a filename ending in `.jar`. -/
def matchesVersion (mc loader : String) (v : ModVersion) : Bool :=
  v.game_versions.contains mc && v.loaders.contains loader
    && v.files.any (fun f => f.filename.endsWith ".jar")

/-- Modelled from the wording of the spec (section 6 and C9): select
the first record satisfying `matchesVersion` and, inside it, the first
file whose name ends in `.jar`. -/
def selectArtifact (vs : List ModVersion) (mc loader : String) : Option ModFile :=
  (vs.find? (matchesVersion mc loader)).bind
    (fun v => v.files.find? (fun f => f.filename.endsWith ".jar"))

/-- The action the install step takes on the game directory once the
artifact `f` has been selected: skip when present, download
otherwise. -/
def installAction (fs : FS) (f : ModFile) : FS × List String :=
  if fs.files.contains f.filename then (fs, [])
  else ({ fs with files := fs.files ++ [f.filename] }, [f.url])

/-! ## The loader-version resolver (`get_fabric_loader_version_safe`) -/

/-- Embeds `FALLBACK_FABRIC_VERSIONS` (src/launcher.py lines 174-180). -/
def FALLBACK_FABRIC_VERSIONS : List String :=
  ["0.15.11", "0.15.10", "0.15.9", "0.15.7", "0.14.25"]

/-- The result of the resolver, tagged by the branch that produced it:
`remote` for the value returned by
`mclib.fabric.get_latest_loader_version()` (line 186), `fallback` for
a value returned from the `except` branch (lines 196 and 203). -/
inductive LoaderResult where
  | remote (version : String)
  | fallback (version : String)
deriving DecidableEq, Repr

/-- The `for version in FALLBACK_FABRIC_VERSIONS` loop of the
`except` branch (src/launcher.py lines 193-203): the loop body is
`try: return version`, which cannot raise, so the first entry is
returned; were the list empty, the code after the loop returns
`FALLBACK_FABRIC_VERSIONS[0]` (an `IndexError` on an empty list, which
never happens for the static list — modelled as `""`). -/
def fallbackScan : List String → String
  | v :: _ => v
  | [] => ""

/-- Embeds `get_fabric_loader_version_safe` (src/launcher.py lines 171-203).
The outcome of the remote registry call is passed in; the `except`
clause names `SSLError`, `ConnectionError`, `Timeout` and `Exception`,
so every exception reaches the fallback branch and the function itself
never raises (it is total and returns no `Except`). -/
def get_fabric_loader_version_safe (fetch : Except NetExc String) : LoaderResult :=
  match fetch with
  | .ok v => .remote v
  | .error _ => .fallback (fallbackScan FALLBACK_FABRIC_VERSIONS)

/-! ## The launch workflow (`launch_game`, src/launcher.py lines 205-338) -/

/-- Embeds `USERNAME` (src/launcher.py line 130). -/
def USERNAME : String := "TheDocingEast"

/-- Embeds `MINECRAFT_VERSION` (src/launcher.py line 131). -/
def MINECRAFT_VERSION : String := "1.20.1"

/-- Embeds `MEMORY_GB` (src/launcher.py line 132). -/
def MEMORY_GB : ℤ := 4

/-- Embeds `MINECRAFT_DIR` (src/launcher.py line 133). -/
def MINECRAFT_DIR : String := "minecraft"

/-- Embeds `LOADER` (src/launcher.py line 134). -/
def LOADER : String := "fabric"

/-- The module-level session state of src/launcher.py: the
`is_game_running` flag and `game_process` global (lines 139-140), the
`game_lock` (line 138, `lockFree` is true when no thread holds it),
and the game directory shared with the install steps. -/
structure SessionState where
  is_game_running : Bool
  game_process : Option ℕ
  lockFree : Bool
  gameDir : FS
deriving DecidableEq, Repr

/-- A value of the `options` dict of `launch_game` (lines 273-281):
either a string or the argument list bound to `jvmArguments`. -/
inductive OptVal where
  | s (v : String)
  | args (v : List String)
deriving DecidableEq, Repr

/-- The `options` dict literal of `launch_game` (src/launcher.py lines
273-281), kept as the entry sequence the literal is written with.  The
literal binds the key `username` twice — first to the `nickname`
loaded from the config, then to the constant `USERNAME` — and builds
`jvmArguments` from the constant `MEMORY_GB`; `ram_value` is loaded
(line 267) but never used. -/
def optionsEntries (nickname : String) (ram_value : PyNum) : List (String × OptVal) :=
  let _ := ram_value
  [ ("username", .s nickname)
  , ("username", .s USERNAME)
  , ("uuid", .s "")
  , ("token", .s "")
  , ("executablePath", .s "java")
  , ("jvmArguments", .args ["-Xmx" ++ toString (MEMORY_GB * 1024) ++ "M"])
  , ("launcherVersion", .s "0.0.1") ]

/-- The Python dict built from an entry sequence: for a duplicated
key the later binding wins. -/
def dictLookup (entries : List (String × OptVal)) (k : String) : Option OptVal :=
  (entries.reverse.find? (fun kv => kv.fst == k)).map (·.snd)

/-- Outcomes of the external calls `launch_game` makes, passed in
explicitly: every field stands for the behaviour of one call site of
src/launcher.py. -/
structure LaunchEnv where
  /-- Modrinth response seen by `ensure_customskinloader` (line 216). -/
  registry : Except NetExc (List ModVersion)
  /-- `load_config(&#34;config.json&#34;)` outcome (lines 222 and 265). -/
  configLoad : Except PyErr Config
  /-- `mclib.fabric.get_latest_loader_version()` outcome (line 184). -/
  fabricFetch : Except NetExc String
  /-- `mclib.fabric.install_fabric` outcome (line 236): `some e` raises. -/
  installFabric : Option NetExc
  /-- `mclib.install.install_minecraft_version` for the fabric id (line 251). -/
  installMinecraft : Option NetExc
  /-- `mclib.command.get_minecraft_command` for the fabric id (line 285). -/
  fabricCommand : Except NetExc (List String)
  /-- vanilla `install_minecraft_version` retry (line 296): `some e` raises. -/
  vanillaInstall : Option NetExc
  /-- vanilla `get_minecraft_command` retry (line 305). -/
  vanillaCommand : Except NetExc (List String)
  /-- `subprocess.Popen` outcome (line 316): a pid, or a raised exception. -/
  spawn : Except NetExc ℕ
  /-- the output-drain loop (lines 324-332): `some e` is a
  supervisor-side exception. -/
  drain : Option NetExc

/-- The command-construction step of `launch_game` (src/launcher.py
lines 283-313): try the loader-specific command; on failure install
the vanilla version and build the vanilla command; if the retry fails
too, `raise e2` propagates the error out of this step. -/
def buildCommand (env : LaunchEnv) : Except NetExc (List String) :=
  match env.fabricCommand with
  | .ok cmd => .ok cmd
  | .error _ =>
    match env.vanillaInstall with
    | some e2 => .error e2
    | none =>
      match env.vanillaCommand with
      | .ok cmd => .ok cmd
      | .error e2 => .error e2

/-- What the body of the `try` of `launch_game` (src/launcher.py lines
214-332) did: the game directory it left behind, the spawned pid (if
any), the options and command it built, and the exception that reached
the outer `except` (line 333), if any. -/
structure BodyOut where
  gameDir : FS
  spawned : Option ℕ
  options : Option (List (String × OptVal))
  command : Option (List String)
  raised : Option NetExc
deriving DecidableEq, Repr

/-- The body of the `try` of `launch_game` after the busy guard
(src/launcher.py lines 214-332).  `ensure_customskinloader` runs inside
its own `try` (lines 215-218), the fabric / minecraft installs absorb
their exceptions (lines 235-261), the config load for `nickname` and
`ram_value` falls back to the constants (lines 264-271), and the
command construction, spawn and drain loop can raise into the outer
handler. -/
def launch_body (env : LaunchEnv) (dir0 : FS) : BodyOut :=
  let dir1 := (ensure_customskinloader dir0 env.registry MINECRAFT_VERSION LOADER).1
  let _fabric_loader := get_fabric_loader_version_safe env.fabricFetch
  let nickname := match env.configLoad with
    | .ok c => c.nickname
    | .error _ => USERNAME
  let ram_value : PyNum := match env.configLoad with
    | .ok c => c.ram
    | .error _ => .int MEMORY_GB
  let opts := optionsEntries nickname ram_value
  match buildCommand env with
  | .error e2 =>
    { gameDir := dir1, spawned := none, options := some opts
      command := none, raised := some e2 }
  | .ok cmd =>
    match env.spawn with
    | .error e =>
      { gameDir := dir1, spawned := none, options := some opts
        command := some cmd, raised := some e }
    | .ok pid =>
      match env.drain with
      | some e =>
        { gameDir := dir1, spawned := some pid, options := some opts
          command := some cmd, raised := some e }
      | none =>
        { gameDir := dir1, spawned := some pid, options := some opts
          command := some cmd, raised := none }

/-- What one invocation of `launch_game` did, as seen by its caller
and by the shared session state. -/
structure LaunchResult where
  state : SessionState
  /-- an exception escaping `launch_game` to its caller (`none`: the
  function returned normally). -/
  escaped : Option NetExc
  /-- the exception the outer `except` (lines 333-334) logged. -/
  absorbed : Option NetExc
  /-- whether any install step was attempted. -/
  installStepsRun : Bool
  spawned : Option ℕ
  options : Option (List (String × OptVal))
  command : Option (List String)
deriving DecidableEq, Repr

/-- Embeds `launch_game` (src/launcher.py lines 205-338).  The guard
takes the lock and returns when `is_game_running` is already true
(lines 208-211); that `return` still runs the `finally` (lines
335-338), which takes the lock again and resets `is_game_running` and
`game_process`.  The outer `except Exception` (line 333) absorbs every
exception of the body, so `launch_game` never raises to its caller. -/
def launch_game (env : LaunchEnv) (s : SessionState) : LaunchResult :=
  if s.is_game_running then
    { state := { s with is_game_running := false, game_process := none, lockFree := true }
      escaped := none, absorbed := none, installStepsRun := false
      spawned := none, options := none, command := none }
  else
    let b := launch_body env s.gameDir
    { state :=
        { is_game_running := false, game_process := none
          lockFree := true, gameDir := b.gameDir }
      escaped := none
      absorbed := b.raised
      installStepsRun := true
      spawned := b.spawned
      options := b.options
      command := b.command }

/-! ## Sample data for concrete evaluations -/

/-- A game directory whose `mods` folder already holds the
CustomSkinLoader jar. -/
def sampleFS : FS :=
  { modsDirExists := true, files := ["CustomSkinLoader-1.0.jar"] }

/-- A session state with a game already running (process 4242). -/
def runningState : SessionState :=
  { is_game_running := true, game_process := some 4242, lockFree := true, gameDir := sampleFS }

/-- An idle session state. -/
def idleState : SessionState :=
  { is_game_running := false, game_process := none, lockFree := true, gameDir := sampleFS }

/-- An environment in which every external call succeeds. -/
def sampleEnv : LaunchEnv :=
  { registry := .ok []
    configLoad := .ok DEFAULT_CONFIG
    fabricFetch := .ok "0.16.0"
    installFabric := none
    installMinecraft := none
    fabricCommand := .ok ["java", "fabric"]
    vanillaInstall := none
    vanillaCommand := .ok ["java", "vanilla"]
    spawn := .ok 77
    drain := none }

/-- A stored config with nickname `Alice` and 8 GB of ram. -/
def aliceConfig : Config :=
  { DEFAULT_CONFIG with nickname := "Alice", ram := .int 8 }

/-- The all-success environment, loading the `Alice` config. -/
def aliceEnv : LaunchEnv :=
  { sampleEnv with configLoad := .ok aliceConfig }

/-- An environment in which both the loader-specific and the vanilla
command construction raise. -/
def bothFailEnv : LaunchEnv :=
  { sampleEnv with
      fabricCommand := .error (.other "fabric cmd failed")
      vanillaCommand := .error (.other "vanilla cmd failed") }

/-- A registry record offering the CustomSkinLoader jar for
`1.20.1` / `fabric`. -/
def cslRecord : ModVersion :=
  { game_versions := ["1.20.1"]
    loaders := ["fabric"]
    files := [{ filename := "CustomSkinLoader-1.0.jar", url := "u" }] }

end InnLab

/-! ## Theorems -/

namespace InnLab

/-- Claim C2 (confirmed): for every network-class error of the remote
registry fetch, `get_fabric_loader_version_safe` returns the first
entry of `FALLBACK_FABRIC_VERSIONS` tagged as a fallback result; the
function is total (the `except` clause catches every exception), so it
never raises. -/
theorem resolver_network_error_gives_first_fallback (e : NetExc)
    (h : isNetworkError e = true) :
    get_fabric_loader_version_safe (.error e) = .fallback "0.15.11" ∧
    FALLBACK_FABRIC_VERSIONS.headD "" = "0.15.11" := by
  exact ⟨rfl, rfl⟩

/-- Witness for C2: the timeout error is network-class, and the
resolver maps it to the fallback `0.15.11`. -/
theorem resolver_network_error_gives_first_fallback_witness :
    isNetworkError .timeout = true ∧
    (get_fabric_loader_version_safe (.error .timeout) = .fallback "0.15.11" ∧
      FALLBACK_FABRIC_VERSIONS.headD "" = "0.15.11") :=
  ⟨by decide, resolver_network_error_gives_first_fallback .timeout (by decide)⟩

/-- Claim C4 (confirmed): on every termination path of `launch_game` —
any outcome of the external calls, any initial state — the final
session state has `is_game_running = false`, `game_process = none`,
the lock released, and no exception escapes to the caller: the
`finally` block runs on every path. -/
theorem launch_game_always_restores_idle (env : LaunchEnv) (s : SessionState) :
    (launch_game env s).state.is_game_running = false ∧
    (launch_game env s).state.game_process = none ∧
    (launch_game env s).state.lockFree = true ∧
    (launch_game env s).escaped = none := by
  unfold launch_game
  cases hb : s.is_game_running <;> simp

/-- Claim C1 (code_bug): a `launch_game` call while a game is already
running performs no install step, spawns no process, builds no command
and leaves the game directory unchanged — but, contrary to the claim,
it does NOT leave the session state unchanged: the `return` of the
busy guard still executes the `finally` block, which resets
`is_game_running` to false and `game_process` to none, clearing the
running session's bookkeeping. -/
theorem busy_launch_clears_running_flag :
    (launch_game sampleEnv runningState).installStepsRun = false ∧
    (launch_game sampleEnv runningState).spawned = none ∧
    (launch_game sampleEnv runningState).command = none ∧
    (launch_game sampleEnv runningState).state.gameDir = runningState.gameDir ∧
    runningState.is_game_running = true ∧
    (launch_game sampleEnv runningState).state.is_game_running = false ∧
    runningState.game_process = some 4242 ∧
    (launch_game sampleEnv runningState).state.game_process = none := by
  refine ⟨rfl, rfl, rfl, rfl, rfl, rfl, rfl, rfl⟩

/-- Claim C8 (code_bug): the options dict that `launch_game` hands to
the command construction binds `username` twice; the second binding
wins, so the username is always the constant `TheDocingEast` and never
the configured nickname, and `jvmArguments` is built from the constant
`MEMORY_GB = 4`, not from the configured `ram`.  Evaluated at a stored
config with nickname `Alice` and `ram = 8`. -/
theorem options_ignore_config_values :
    (launch_game aliceEnv idleState).options = some (optionsEntries "Alice" (.int 8)) ∧
    dictLookup (optionsEntries "Alice" (.int 8)) "username" = some (.s "TheDocingEast") ∧
    dictLookup (optionsEntries "Alice" (.int 8)) "username" ≠ some (.s "Alice") ∧
    dictLookup (optionsEntries "Alice" (.int 8)) "jvmArguments" = some (.args ["-Xmx4096M"]) ∧
    dictLookup (optionsEntries "Alice" (.int 8)) "jvmArguments" ≠ some (.args ["-Xmx8192M"]) := by
  refine ⟨rfl, rfl, by decide, rfl, by decide⟩

/-- Counterexample to claim C3 as stated: with both the loader-specific
and the vanilla command construction failing, the fatal error is NOT
reported to the caller of `launch_game` — the outer handler absorbs it
and `launch_game` returns normally (`escaped = none`); no process is
spawned. -/
theorem fatal_command_error_is_absorbed :
    buildCommand bothFailEnv = .error (.other "vanilla cmd failed") ∧
    (launch_game bothFailEnv idleState).escaped = none ∧
    (launch_game bothFailEnv idleState).absorbed = some (.other "vanilla cmd failed") ∧
    (launch_game bothFailEnv idleState).spawned = none := by
  refine ⟨rfl, rfl, rfl, rfl⟩

/-- Claim C3 (corrected): if the loader-specific command construction
fails, the workflow retries with the vanilla variant; if the vanilla
retry also fails, the error propagates out of the
command-construction step (`raise e2`), the launch is aborted with no
process spawned — but the error is then absorbed and logged by the
top-level handler of `launch_game` instead of propagating to its
caller. -/
theorem command_construction_vanilla_retry (env : LaunchEnv) (s : SessionState)
    (e : NetExc) (hf : env.fabricCommand = .error e)
    (hs : s.is_game_running = false) :
    (∀ cmd, env.vanillaInstall = none → env.vanillaCommand = .ok cmd →
      buildCommand env = .ok cmd) ∧
    (∀ e2, env.vanillaInstall = none → env.vanillaCommand = .error e2 →
      buildCommand env = .error e2 ∧
      (launch_game env s).spawned = none ∧
      (launch_game env s).escaped = none ∧
      (launch_game env s).absorbed = some e2) := by
  constructor
  · intro cmd h1 h2
    unfold buildCommand
    rw [hf, h1, h2]
  · intro e2 h1 h2
    have hb : buildCommand env = .error e2 := by
      unfold buildCommand
      rw [hf, h1, h2]
    refine ⟨hb, ?_, ?_, ?_⟩ <;>
      simp [launch_game, hs, launch_body, hb]

/-- Witness for C3: in the environment where both constructions fail,
the hypotheses hold and the vanilla error is absorbed. -/
theorem command_construction_vanilla_retry_witness :
    bothFailEnv.fabricCommand = .error (.other "fabric cmd failed") ∧
    idleState.is_game_running = false ∧
    ((∀ cmd, bothFailEnv.vanillaInstall = none → bothFailEnv.vanillaCommand = .ok cmd →
      buildCommand bothFailEnv = .ok cmd) ∧
    (∀ e2, bothFailEnv.vanillaInstall = none → bothFailEnv.vanillaCommand = .error e2 →
      buildCommand bothFailEnv = .error e2 ∧
      (launch_game bothFailEnv idleState).spawned = none ∧
      (launch_game bothFailEnv idleState).escaped = none ∧
      (launch_game bothFailEnv idleState).absorbed = some e2)) :=
  ⟨rfl, rfl, command_construction_vanilla_retry bothFailEnv idleState
    (.other "fabric cmd failed") rfl rfl⟩

/-- Counterexample to claim C5 as stated: for the document
`{"ram": 999}` the loader returns the default `ram = 4`, not the
claimed clamped value `32`. -/
theorem load_ram_999_gives_default_not_32 :
    ConfigManager.load_config (.json (.obj [("ram", .num (.int 999))])) =
      .ok DEFAULT_CONFIG ∧
    DEFAULT_CONFIG.ram = .int 4 ∧ DEFAULT_CONFIG.ram ≠ .int 32 := by
  refine ⟨rfl, rfl, by decide⟩

/-- Claim C5 (corrected): the `ram` field is not clamped; a numeric
value outside `[2, 32]` is rejected and the default `4` is used, with
every other field at its default. -/
theorem load_ram_out_of_range_gives_defaults (v : JVal)
    (h1 : isNumber v = true) (h2 : ramInRange v = false) :
    ConfigManager.load_config (.json (.obj [("ram", v)])) = .ok DEFAULT_CONFIG := by
  have hram : validateRam [("ram", v)] = .int 4 := by
    cases v with
    | num w =>
        have hstep : validateRam [("ram", JVal.num w)] =
            (if (isNumber (JVal.num w) && ramInRange (JVal.num w)) = true
             then w else PyNum.int 4) := rfl
        rw [hstep, h2]
        simp
    | bool b => rfl
    | str s => simp [isNumber] at h1
    | null => simp [isNumber] at h1
    | arr xs => simp [isNumber] at h1
    | obj kvs => simp [isNumber] at h1
  have hload : ConfigManager.load_config (.json (.obj [("ram", v)])) =
      .ok { DEFAULT_CONFIG with ram := validateRam [("ram", v)] } := rfl
  rw [hload, hram]
  rfl

/-- Witness for C5: `999` is numeric, out of range, and yields the
default config. -/
theorem load_ram_out_of_range_gives_defaults_witness :
    isNumber (.num (.int 999)) = true ∧ ramInRange (.num (.int 999)) = false ∧
    ConfigManager.load_config (.json (.obj [("ram", .num (.int 999))])) =
      .ok DEFAULT_CONFIG :=
  ⟨by decide, by decide,
    load_ram_out_of_range_gives_defaults (.num (.int 999)) (by decide) (by decide)⟩

/-- Claim C7 (code_bug): `load_config` is not total.  The Python
`json` parser accepts the non-standard tokens `Infinity` and `NaN`, a
numeric window field passes the `isinstance` check, and `int()` then
raises `OverflowError` (infinity) or `ValueError` (NaN); neither is in
the `except` tuple `(json.JSONDecodeError, IOError,
UnicodeDecodeError)`, so the exception escapes `load_config`, contrary
to the claim that it never raises. -/
theorem load_config_raises_on_nonfinite_window :
    ConfigManager.load_config
        (.json (.obj [("window_width", .num (.float .inf))])) =
      .error .overflowError ∧
    ConfigManager.load_config
        (.json (.obj [("window_height", .num (.float .nan))])) =
      .error .valueError := by
  refine ⟨rfl, rfl⟩

/-! ### Selection and idempotence of the auxiliary-mod step -/

lemma handleFiles_eq (fs : FS) (files : List ModFile) :
    handleFiles fs files = (pickFromFiles files).map (installAction fs) := by
  induction files with
  | nil => rfl
  | cons f rest ih =>
      have hstep : handleFiles fs (f :: rest) =
          (if f.filename.endsWith ".jar" = true
           then if fs.files.contains f.filename = true
                then some ((fs, []) : FS × List String)
                else some ({ fs with files := fs.files ++ [f.filename] }, [f.url])
           else handleFiles fs rest) := rfl
      have hpick : pickFromFiles (f :: rest) =
          (if f.filename.endsWith ".jar" = true
           then some f else pickFromFiles rest) := rfl
      rw [hstep, hpick]
      by_cases hf : f.filename.endsWith ".jar" = true
      · rw [if_pos hf, if_pos hf]
        by_cases hm : fs.files.contains f.filename = true
        · have hmem : f.filename ∈ fs.files := by simpa using hm
          rw [if_pos hm]
          simp [installAction, hmem]
        · have hmem : f.filename ∉ fs.files := by simpa using hm
          rw [if_neg hm]
          simp [installAction, hmem]
      · rw [if_neg hf, if_neg hf]
        exact ih

lemma scanVersions_eq (fs : FS) (mc loader : String) (vs : List ModVersion) :
    scanVersions fs mc loader vs =
      match pickArtifact mc loader vs with
      | none => (fs, [])
      | some f => installAction fs f := by
  induction vs with
  | nil => rfl
  | cons v rest ih =>
      have hstep : scanVersions fs mc loader (v :: rest) =
          (if (v.game_versions.contains mc && v.loaders.contains loader) = true
           then match handleFiles fs v.files with
                | some r => r
                | none => scanVersions fs mc loader rest
           else scanVersions fs mc loader rest) := rfl
      have hpick : pickArtifact mc loader (v :: rest) =
          (if (v.game_versions.contains mc && v.loaders.contains loader) = true
           then match pickFromFiles v.files with
                | some f => some f
                | none => pickArtifact mc loader rest
           else pickArtifact mc loader rest) := rfl
      rw [hstep, hpick]
      by_cases hc : (v.game_versions.contains mc && v.loaders.contains loader) = true
      · rw [if_pos hc, if_pos hc, handleFiles_eq]
        cases hp : pickFromFiles v.files with
        | none => exact ih
        | some f => rfl
      · rw [if_neg hc, if_neg hc]
        exact ih

lemma pickFromFiles_eq_find (files : List ModFile) :
    pickFromFiles files = files.find? (fun f => f.filename.endsWith ".jar") := by
  induction files with
  | nil => rfl
  | cons f rest ih =>
      have hpick : pickFromFiles (f :: rest) =
          (if f.filename.endsWith ".jar" = true
           then some f else pickFromFiles rest) := rfl
      rw [hpick]
      by_cases hf : f.filename.endsWith ".jar" = true
      · have hfind : List.find? (fun g => g.filename.endsWith ".jar") (f :: rest) = some f :=
          List.find?_cons_of_pos rest hf
        rw [if_pos hf, hfind]
      · have hfind : List.find? (fun g => g.filename.endsWith ".jar") (f :: rest) =
            List.find? (fun g => g.filename.endsWith ".jar") rest :=
          List.find?_cons_of_neg rest hf
        rw [if_neg hf, hfind, ih]

lemma pickArtifact_eq_selectArtifact (mc loader : String) (vs : List ModVersion) :
    pickArtifact mc loader vs = selectArtifact vs mc loader := by
  induction vs with
  | nil => rfl
  | cons v rest ih =>
      have hpick : pickArtifact mc loader (v :: rest) =
          (if (v.game_versions.contains mc && v.loaders.contains loader) = true
           then match pickFromFiles v.files with
                | some f => some f
                | none => pickArtifact mc loader rest
           else pickArtifact mc loader rest) := rfl
      rw [hpick]
      unfold selectArtifact
      by_cases hc : (v.game_versions.contains mc && v.loaders.contains loader) = true
      · rw [if_pos hc]
        cases hp : pickFromFiles v.files with
        | none =>
            rw [pickFromFiles_eq_find] at hp
            have hany : (v.files.any fun f => f.filename.endsWith ".jar") = false := by
              cases h2 : v.files.any fun f => f.filename.endsWith ".jar" with
              | false => rfl
              | true =>
                  obtain ⟨x, hx, hjar⟩ := List.any_eq_true.mp h2
                  exact absurd hjar (List.find?_eq_none.mp hp x hx)
            have hm : ¬ matchesVersion mc loader v = true := by
              unfold matchesVersion
              rw [hc, hany]
              simp
            have hfind : List.find? (matchesVersion mc loader) (v :: rest) =
                List.find? (matchesVersion mc loader) rest :=
              List.find?_cons_of_neg rest hm
            rw [hfind]
            exact ih
        | some f =>
            rw [pickFromFiles_eq_find] at hp
            have hjar :=
              @List.find?_some ModFile (fun g => g.filename.endsWith ".jar") f v.files hp
            have hmemf :=
              @List.mem_of_find?_eq_some ModFile (fun g => g.filename.endsWith ".jar")
                f v.files hp
            have hany : (v.files.any fun g => g.filename.endsWith ".jar") = true := by
              rw [List.any_eq_true]
              exact ⟨f, hmemf, hjar⟩
            have hm : matchesVersion mc loader v = true := by
              unfold matchesVersion
              rw [hc, hany]
              rfl
            have hfind : List.find? (matchesVersion mc loader) (v :: rest) = some v :=
              List.find?_cons_of_pos rest hm
            rw [hfind]
            simp only [Option.some_bind]
            rw [hp]
      · have hcf : (v.game_versions.contains mc && v.loaders.contains loader) = false := by
          cases h2 : v.game_versions.contains mc && v.loaders.contains loader with
          | true => exact absurd h2 hc
          | false => rfl
        have hm : ¬ matchesVersion mc loader v = true := by
          unfold matchesVersion
          rw [hcf]
          simp
        have hfind : List.find? (matchesVersion mc loader) (v :: rest) =
            List.find? (matchesVersion mc loader) rest :=
          List.find?_cons_of_neg rest hm
        rw [if_neg hc, hfind]
        exact ih

/-- The behaviour of `ensure_customskinloader` on a successful
registry response, characterized by the spec-side selection. -/
lemma ensure_eq_select (fs : FS) (mc loader : String) (vs : List ModVersion) :
    ensure_customskinloader fs (.ok vs) mc loader =
      match selectArtifact vs mc loader with
      | none => ({ fs with modsDirExists := true }, [])
      | some f => installAction { fs with modsDirExists := true } f := by
  have h0 : ensure_customskinloader fs (.ok vs) mc loader =
      scanVersions { fs with modsDirExists := true } mc loader vs := rfl
  rw [h0, scanVersions_eq, pickArtifact_eq_selectArtifact]

/-- Claim C9 (confirmed): the loops of `ensure_customskinloader`
select exactly the first record whose `game_versions` contain the
requested version, whose `loaders` contain the requested loader and
whose `files` contain a `.jar` filename, and inside it the first
`.jar` file; records failing any condition are skipped in order, and
the install step checks or downloads exactly that artifact. -/
theorem selection_is_first_matching_record (mc loader : String) (vs : List ModVersion)
    (fs : FS) :
    pickArtifact mc loader vs = selectArtifact vs mc loader ∧
    ensure_customskinloader fs (.ok vs) mc loader =
      (match selectArtifact vs mc loader with
       | none => ({ fs with modsDirExists := true }, [])
       | some f => installAction { fs with modsDirExists := true } f) :=
  ⟨pickArtifact_eq_selectArtifact mc loader vs, ensure_eq_select fs mc loader vs⟩

/-- Claim C6 (confirmed): when the selected artifact is already on
disk the step downloads nothing and leaves the filesystem unchanged,
and running the step twice with no filesystem change in between
downloads nothing the second time and returns the same directory
state. -/
theorem ensure_customskinloader_idempotent (fs : FS) (mc loader : String)
    (vs : List ModVersion) (hdir : fs.modsDirExists = true) :
    (∀ f, selectArtifact vs mc loader = some f →
      fs.files.contains f.filename = true →
      ensure_customskinloader fs (.ok vs) mc loader = (fs, [])) ∧
    (ensure_customskinloader
        (ensure_customskinloader fs (.ok vs) mc loader).1 (.ok vs) mc loader =
      ((ensure_customskinloader fs (.ok vs) mc loader).1, [])) := by
  obtain ⟨d, fls⟩ := fs
  have hd : d = true := hdir
  subst hd
  constructor
  · intro f hsel hmem
    rw [ensure_eq_select, hsel]
    show installAction (⟨true, fls⟩ : FS) f = ((⟨true, fls⟩ : FS), [])
    unfold installAction
    rw [if_pos hmem]
  · rw [ensure_eq_select (⟨true, fls⟩ : FS) mc loader vs]
    cases hsel : selectArtifact vs mc loader with
    | none =>
        have h2 : ensure_customskinloader (⟨true, fls⟩ : FS) (.ok vs) mc loader =
            ((⟨true, fls⟩ : FS), []) := by
          rw [ensure_eq_select, hsel]
        exact h2
    | some f =>
        by_cases hmem : fls.contains f.filename = true
        · have hact : installAction (⟨true, fls⟩ : FS) f = ((⟨true, fls⟩ : FS), []) := by
            unfold installAction
            rw [if_pos hmem]
          have h2 : ensure_customskinloader (⟨true, fls⟩ : FS) (.ok vs) mc loader =
              ((⟨true, fls⟩ : FS), []) := by
            rw [ensure_eq_select, hsel]
            exact hact
          show ensure_customskinloader (installAction (⟨true, fls⟩ : FS) f).1
              (.ok vs) mc loader = ((installAction (⟨true, fls⟩ : FS) f).1, [])
          rw [hact]
          exact h2
        · have hact : installAction (⟨true, fls⟩ : FS) f =
              ((⟨true, fls ++ [f.filename]⟩ : FS), [f.url]) := by
            unfold installAction
            rw [if_neg hmem]
          have hmem2 : (fls ++ [f.filename]).contains f.filename = true := by
            simp
          have hact2 : installAction (⟨true, fls ++ [f.filename]⟩ : FS) f =
              ((⟨true, fls ++ [f.filename]⟩ : FS), []) := by
            unfold installAction
            rw [if_pos hmem2]
          show ensure_customskinloader (installAction (⟨true, fls⟩ : FS) f).1
              (.ok vs) mc loader = ((installAction (⟨true, fls⟩ : FS) f).1, [])
          rw [hact]
          rw [ensure_eq_select, hsel]
          exact hact2

/-! ### The save/load round trip -/

lemma dropWhile_eq_self_of_all (cs : List Char)
    (h : cs.all (fun ch => !pyIsSpace ch) = true) :
    cs.dropWhile pyIsSpace = cs := by
  cases cs with
  | nil => rfl
  | cons ch t =>
      have hch : pyIsSpace ch = false := by
        have hmem := List.all_eq_true.mp h ch (List.mem_cons_self ch t)
        simpa using hmem
      rw [List.dropWhile_cons, hch]
      simp

lemma pyStripList_eq_self (cs : List Char)
    (h : cs.all (fun ch => !pyIsSpace ch) = true) :
    pyStripList cs = cs := by
  unfold pyStripList
  rw [dropWhile_eq_self_of_all cs h]
  have hrev : cs.reverse.all (fun ch => !pyIsSpace ch) = true := by
    rw [List.all_eq_true] at h ⊢
    intro x hx
    exact h x (List.mem_reverse.mp hx)
  rw [dropWhile_eq_self_of_all cs.reverse hrev, List.reverse_reverse]

lemma pyStrip_eq_self (s : String)
    (h : s.data.all (fun ch => !pyIsSpace ch) = true) :
    pyStrip s = s := by
  unfold pyStrip
  rw [pyStripList_eq_self s.data h]

lemma saveRam_of_ok (cfg : List (String × JVal))
    (h : ramOk (pyGetD cfg "ram" (.num (.int 4))) = true) :
    ∃ pn, saveRam cfg = .num pn ∧ ramInRange (.num pn) = true := by
  unfold ramOk at h
  obtain ⟨h1, h2⟩ := Bool.and_eq_true_iff.mp h
  have hsr : saveRam cfg = pyGetD cfg "ram" (.num (.int 4)) := by
    have hstep : saveRam cfg =
        (if (isNumber (pyGetD cfg "ram" (.num (.int 4))) &&
             ramInRange (pyGetD cfg "ram" (.num (.int 4)))) = true
         then pyGetD cfg "ram" (.num (.int 4)) else .num (.int 4)) := rfl
    rw [hstep, if_pos h]
  cases hv : pyGetD cfg "ram" (.num (.int 4)) with
  | num pn =>
      refine ⟨pn, ?_, ?_⟩
      · rw [hsr, hv]
      · rw [hv] at h2
        exact h2
  | bool b => rw [hv] at h2; simp [ramInRange] at h2
  | str s => rw [hv] at h1; simp [isNumber] at h1
  | null => rw [hv] at h1; simp [isNumber] at h1
  | arr xs => rw [hv] at h1; simp [isNumber] at h1
  | obj kvs => rw [hv] at h1; simp [isNumber] at h1

lemma saveStr_shape (cfg : List (String × JVal)) (k : String) (d : String) :
    ∃ s, saveStr cfg k d = .str s := by
  cases hv : pyGetD cfg k (.str d) with
  | num pn => exact ⟨d, by unfold saveStr; rw [hv]⟩
  | str s => exact ⟨s, by unfold saveStr; rw [hv]⟩
  | bool b => exact ⟨d, by unfold saveStr; rw [hv]⟩
  | null => exact ⟨d, by unfold saveStr; rw [hv]⟩
  | arr xs => exact ⟨d, by unfold saveStr; rw [hv]⟩
  | obj kvs => exact ⟨d, by unfold saveStr; rw [hv]⟩

lemma saveBool_shape (cfg : List (String × JVal)) (k : String) (d : Bool) :
    ∃ b, saveBool cfg k d = .bool b := by
  cases hv : pyGetD cfg k (.bool d) with
  | num pn => exact ⟨d, by unfold saveBool; rw [hv]⟩
  | str s => exact ⟨d, by unfold saveBool; rw [hv]⟩
  | bool b => exact ⟨b, by unfold saveBool; rw [hv]⟩
  | null => exact ⟨d, by unfold saveBool; rw [hv]⟩
  | arr xs => exact ⟨d, by unfold saveBool; rw [hv]⟩
  | obj kvs => exact ⟨d, by unfold saveBool; rw [hv]⟩

lemma saveStr_of_nickOk (cfg : List (String × JVal)) (d : String)
    (h : nickOk (pyGetD cfg "nickname" (.str d)) = true) :
    ∃ s, saveStr cfg "nickname" d = .str s ∧ nickOk (.str s) = true := by
  cases hv : pyGetD cfg "nickname" (.str d) with
  | str s =>
      refine ⟨s, by unfold saveStr; rw [hv], ?_⟩
      rw [hv] at h
      exact h
  | num pn => rw [hv] at h; simp [nickOk] at h
  | bool b => rw [hv] at h; simp [nickOk] at h
  | null => rw [hv] at h; simp [nickOk] at h
  | arr xs => rw [hv] at h; simp [nickOk] at h
  | obj kvs => rw [hv] at h; simp [nickOk] at h

lemma saveInt_ok (cfg : List (String × JVal)) (k : String) (d : ℤ) (hd : 600 ≤ d)
    (h : winOk (pyGetD cfg k (.num (.int d))) = true) :
    ∃ n : ℤ, saveInt cfg k d = .num (.int n) ∧ 600 ≤ n := by
  cases hv : pyGetD cfg k (.num (.int d)) with
  | num pn =>
      cases pn with
      | int n =>
          refine ⟨n, by unfold saveInt; rw [hv], ?_⟩
          rw [hv] at h
          simpa [winOk] using h
      | float x =>
          cases x with
          | finite q => exact ⟨d, by unfold saveInt; rw [hv], hd⟩
          | inf => rw [hv] at h; simp [winOk] at h
          | ninf => rw [hv] at h; simp [winOk] at h
          | nan => rw [hv] at h; simp [winOk] at h
  | str s => rw [hv] at h; simp [winOk] at h
  | bool b => rw [hv] at h; simp [winOk] at h
  | null => rw [hv] at h; simp [winOk] at h
  | arr xs => rw [hv] at h; simp [winOk] at h
  | obj kvs => rw [hv] at h; simp [winOk] at h

/-- Loading the JSON rendering of a validated config returns it
unchanged, provided its fields satisfy the invariants the saved
document always has. -/
lemma load_writtenOf (c : Config)
    (hram : ramInRange (.num c.ram) = true)
    (hnick : nickOk (.str c.nickname) = true)
    (hww : 600 ≤ c.window_width)
    (hwh : 600 ≤ c.window_height) :
    ConfigManager.load_config (.json (.obj (writtenOf c))) = .ok c := by
  have hnick2 : (!c.nickname.data.isEmpty &&
      c.nickname.data.all (fun ch => !pyIsSpace ch)) = true := hnick
  obtain ⟨hne, hall⟩ := Bool.and_eq_true_iff.mp hnick2
  have hne2 : c.nickname.data.isEmpty = false := by simpa using hne
  have hps : pyStrip c.nickname = c.nickname := pyStrip_eq_self _ hall
  have hlen : 0 < (pyStrip c.nickname).data.length := by
    rw [hps]
    cases hd : c.nickname.data with
    | nil => rw [hd] at hne2; simp at hne2
    | cons a t => simp
  have hvr : validateRam (writtenOf c) =
      (if (isNumber (.num c.ram) && ramInRange (.num c.ram)) = true
       then c.ram else .int 4) := rfl
  have hcond : (isNumber (JVal.num c.ram) && ramInRange (JVal.num c.ram)) = true := by
    rw [hram]
    rfl
  have hvr2 : validateRam (writtenOf c) = c.ram := by
    rw [hvr, if_pos hcond]
  have hvn : validateNickname (writtenOf c) =
      (if 0 < (pyStrip c.nickname).data.length then pyStrip c.nickname
       else DEFAULT_CONFIG.nickname) := rfl
  have hvn2 : validateNickname (writtenOf c) = c.nickname := by
    rw [hvn, if_pos hlen, hps]
  have hobj : ConfigManager.load_config (.json (.obj (writtenOf c))) =
      .ok { ram := validateRam (writtenOf c)
            skin := validateSkin (writtenOf c)
            nickname := validateNickname (writtenOf c)
            theme := validateStrKey (writtenOf c) "theme" DEFAULT_CONFIG.theme
            auto_update := validateAutoUpdate (writtenOf c)
            java_path := validateStrKey (writtenOf c) "java_path" DEFAULT_CONFIG.java_path
            window_width := max 600 c.window_width
            window_height := max 600 c.window_height } := rfl
  rw [hobj, hvr2, hvn2, max_eq_right hww, max_eq_right hwh]
  rfl

/-- Claim C10 (confirmed): for every config dict whose `ram` is a
number in `[2, 32]`, whose `nickname` is a non-empty string without
whitespace (no character the Python `str.strip` removes, per
`pyIsSpace`), and whose window fields are numbers at least `600`, the
document `save_config` writes is returned unchanged, field for field,
by an immediately following `load_config`. -/
theorem save_load_roundtrip (cfg : List (String × JVal))
    (hr : ramOk (pyGetD cfg "ram" (.num (.int 4))) = true)
    (hn : nickOk (pyGetD cfg "nickname" (.str DEFAULT_CONFIG.nickname)) = true)
    (hw : winOk (pyGetD cfg "window_width" (.num (.int DEFAULT_CONFIG.window_width))) = true)
    (hh : winOk (pyGetD cfg "window_height" (.num (.int DEFAULT_CONFIG.window_height))) = true) :
    ∃ c : Config,
      ConfigManager.load_config (.json (.obj (ConfigManager.save_validated cfg))) = .ok c ∧
      ConfigManager.save_validated cfg = writtenOf c := by
  obtain ⟨pn, e_ram, h_range⟩ := saveRam_of_ok cfg hr
  obtain ⟨sk, e_skin⟩ := saveStr_shape cfg "skin" DEFAULT_CONFIG.skin
  obtain ⟨nk, e_nick, h_nick⟩ := saveStr_of_nickOk cfg DEFAULT_CONFIG.nickname hn
  obtain ⟨th, e_theme⟩ := saveStr_shape cfg "theme" DEFAULT_CONFIG.theme
  obtain ⟨au, e_au⟩ := saveBool_shape cfg "auto_update" DEFAULT_CONFIG.auto_update
  obtain ⟨jp, e_jp⟩ := saveStr_shape cfg "java_path" DEFAULT_CONFIG.java_path
  obtain ⟨n1, e_ww, h_ww⟩ :=
    saveInt_ok cfg "window_width" DEFAULT_CONFIG.window_width (by decide) hw
  obtain ⟨n2, e_wh, h_wh⟩ :=
    saveInt_ok cfg "window_height" DEFAULT_CONFIG.window_height (by decide) hh
  have hW : ConfigManager.save_validated cfg =
      writtenOf ⟨pn, sk, nk, th, au, jp, n1, n2⟩ := by
    unfold ConfigManager.save_validated writtenOf
    rw [e_ram, e_skin, e_nick, e_theme, e_au, e_jp, e_ww, e_wh]
  refine ⟨⟨pn, sk, nk, th, au, jp, n1, n2⟩, ?_, hW⟩
  rw [hW]
  exact load_writtenOf ⟨pn, sk, nk, th, au, jp, n1, n2⟩ h_range h_nick h_ww h_wh

/-- Witness for C10: a concrete stored dict with ram 8, nickname
`Alice`, a skin path and a 700-pixel window width round-trips. -/
theorem save_load_roundtrip_witness :
    ramOk (pyGetD [(("ram" : String), JVal.num (.int 8)),
        ("nickname", JVal.str "Alice"), ("skin", JVal.str "skin.png"),
        ("window_width", JVal.num (.int 700))] "ram" (.num (.int 4))) = true ∧
    nickOk (pyGetD [(("ram" : String), JVal.num (.int 8)),
        ("nickname", JVal.str "Alice"), ("skin", JVal.str "skin.png"),
        ("window_width", JVal.num (.int 700))] "nickname"
        (.str DEFAULT_CONFIG.nickname)) = true ∧
    winOk (pyGetD [(("ram" : String), JVal.num (.int 8)),
        ("nickname", JVal.str "Alice"), ("skin", JVal.str "skin.png"),
        ("window_width", JVal.num (.int 700))] "window_width"
        (.num (.int DEFAULT_CONFIG.window_width))) = true ∧
    winOk (pyGetD [(("ram" : String), JVal.num (.int 8)),
        ("nickname", JVal.str "Alice"), ("skin", JVal.str "skin.png"),
        ("window_width", JVal.num (.int 700))] "window_height"
        (.num (.int DEFAULT_CONFIG.window_height))) = true ∧
    (∃ c : Config,
      ConfigManager.load_config (.json (.obj (ConfigManager.save_validated
        [(("ram" : String), JVal.num (.int 8)),
         ("nickname", JVal.str "Alice"), ("skin", JVal.str "skin.png"),
         ("window_width", JVal.num (.int 700))]))) = .ok c ∧
      ConfigManager.save_validated
        [(("ram" : String), JVal.num (.int 8)),
         ("nickname", JVal.str "Alice"), ("skin", JVal.str "skin.png"),
         ("window_width", JVal.num (.int 700))] = writtenOf c) :=
  ⟨by decide, by decide, by decide, by decide,
    save_load_roundtrip
      [(("ram" : String), JVal.num (.int 8)),
       ("nickname", JVal.str "Alice"), ("skin", JVal.str "skin.png"),
       ("window_width", JVal.num (.int 700))]
      (by decide) (by decide) (by decide) (by decide)⟩

/-- Witness for C6: a directory already holding the jar selected for
`1.20.1` / `fabric`; the step is a no-op and the double run downloads
nothing. -/
theorem ensure_customskinloader_idempotent_witness :
    sampleFS.modsDirExists = true ∧
    ((∀ f, selectArtifact [cslRecord] "1.20.1" "fabric" = some f →
      sampleFS.files.contains f.filename = true →
      ensure_customskinloader sampleFS (.ok [cslRecord]) "1.20.1" "fabric" =
        (sampleFS, [])) ∧
    (ensure_customskinloader
        (ensure_customskinloader sampleFS (.ok [cslRecord]) "1.20.1" "fabric").1
        (.ok [cslRecord]) "1.20.1" "fabric" =
      ((ensure_customskinloader sampleFS (.ok [cslRecord]) "1.20.1" "fabric").1, []))) :=
  ⟨rfl, ensure_customskinloader_idempotent sampleFS "1.20.1" "fabric" [cslRecord] rfl⟩

end InnLab
